import Mathlib

/-!
Verification development for the Nocturne request workbench (src/app.py).

The file shallowly embeds the request/session dispatch layer of the
application: the header parser, the REST and GraphQL executors, and the
WebSocket session manager.  Network calls and the JSON decoder are
library boundaries; they are represented by explicit outcome parameters
(a transport outcome, a decode function), while all decision logic,
message strings, and state updates are translated directly from the
Python source.
-/

/-! ## Python string primitives -/

/-- Whitespace as recognised by Python's str.strip (the characters for
which str.isspace holds): 0x09-0x0D, 0x1C-0x1F, space, 0x85, 0xA0 and
the Unicode space/line separators. -/
def pyWS (c : Char) : Bool :=
  let n := c.toNat
  (9 ≤ n && n ≤ 13) || (28 ≤ n && n ≤ 31) || n == 32 || n == 133 || n == 160 ||
    n == 5760 || (8192 ≤ n && n ≤ 8202) || n == 8232 || n == 8233 ||
    n == 8239 || n == 8287 || n == 12288

/-- Python str.strip on a character list: drop whitespace from the front,
then from the back. -/
def stripL (l : List Char) : List Char :=
  ((l.dropWhile pyWS).reverse.dropWhile pyWS).reverse

/-- Python str.strip. -/
def pyStrip (s : String) : String :=
  String.mk (stripL s.data)

/-- Line boundaries recognised by Python str.splitlines. -/
def isLineBreak (c : Char) : Bool :=
  let n := c.toNat
  n == 10 || n == 13 || n == 11 || n == 12 || n == 28 || n == 29 || n == 30 ||
    n == 133 || n == 8232 || n == 8233

/-- Worker for str.splitlines: accumulates the current line in reverse. -/
def splitlinesGo : List Char → List Char → List (List Char)
  | [], acc => if acc.isEmpty then [] else [acc.reverse]
  | '\r' :: '\n' :: rest, acc => acc.reverse :: splitlinesGo rest []
  | c :: rest, acc =>
    if isLineBreak c then acc.reverse :: splitlinesGo rest []
    else splitlinesGo rest (c :: acc)

/-- Python str.splitlines (keepends=False) on a character list. -/
def splitlinesL (l : List Char) : List (List Char) :=
  splitlinesGo l []

/-- The part of a line before its first colon (line.split with colon and
maxsplit one, first component). -/
def beforeColon (l : List Char) : List Char :=
  l.takeWhile (fun c => c != ':')

/-- The part of a line after its first colon (line.split with colon and
maxsplit one, second component). -/
def afterColon (l : List Char) : List Char :=
  (l.dropWhile (fun c => c != ':')).drop 1

/-- Header key extracted from a line: text before the first colon, stripped. -/
def keyL (l : List Char) : String :=
  String.mk (stripL (beforeColon l))

/-- Header value extracted from a line: text after the first colon, stripped. -/
def valL (l : List Char) : String :=
  String.mk (stripL (afterColon l))

/-- Python dict assignment headers[key] = value on an insertion-ordered
association list: overwrite in place if the key exists, else append. -/
def insertOverwrite : List (String × String) → String → String → List (String × String)
  | [], k, v => [(k, v)]
  | (k1, v1) :: rest, k, v =>
    if k1 = k then (k, v) :: rest else (k1, v1) :: insertOverwrite rest k v

/-- Dictionary lookup on the insertion-ordered association list. -/
def lookupKey : List (String × String) → String → Option String
  | [], _ => none
  | (k1, v1) :: rest, k => if k1 = k then some v1 else lookupKey rest k

/-- The loop body of parse_headers over the list of lines, carrying the
dictionary built so far.  Blank lines are skipped; a non-blank line
without a colon raises ValueError citing the line verbatim; otherwise the
line is split on its first colon and both sides are stripped. -/
def parseLines : List (List Char) → List (String × String) → Except String (List (String × String))
  | [], acc => .ok acc
  | l :: ls, acc =>
    if stripL l = [] then parseLines ls acc
    else if l.contains ':' then
      parseLines ls (insertOverwrite acc (keyL l) (valL l))
    else
      .error ("Invalid header line (missing colon): " ++ String.mk l)

/-- Embeds parse_headers (src/app.py lines 27-37).  The ValueError raised
by the Python function is the error branch of the Except. -/
def parse_headers (raw : String) : Except String (List (String × String)) :=
  parseLines (splitlinesL raw.data) []

/-- A line on which parse_headers fails: non-blank and containing no colon. -/
def badLine (l : List Char) : Bool :=
  !(stripL l).isEmpty && !(l.contains ':')

instance {e a : Type} [DecidableEq e] [DecidableEq a] : DecidableEq (Except e a) := by
  intro x y
  cases x <;> cases y
  case error.error u v =>
    exact decidable_of_iff (u = v) ⟨by rintro rfl; rfl, by intro h; injection h⟩
  case error.ok u v => exact .isFalse (by intro h; cases h)
  case ok.error u v => exact .isFalse (by intro h; cases h)
  case ok.ok u v =>
    exact decidable_of_iff (u = v) ⟨by rintro rfl; rfl, by intro h; injection h⟩

/-! ## Result model and REST / GraphQL executors -/

/-- Embeds the RestResponse dataclass (src/app.py lines 49-55).  The
elapsed time is a float in the source; it is carried here as whole
milliseconds, which no claim inspects arithmetically. -/
structure RestResponse where
  status_code : Nat
  reason_phrase : String
  elapsed : Nat
  headers : List (String × String)
  body : String
deriving Repr, DecidableEq

/-- Outcome of the httpx network exchange, the library boundary of the
executors: either a completed response (body already decoded to text,
as httpx does with replacement on undecodable bytes) or a raised
exception carrying its message. -/
inductive Transport where
  | ok (status_code : Nat) (reason_phrase : String) (elapsedMs : Nat)
      (headers : List (String × String)) (body : String)
  | exn (msg : String)
deriving Repr, DecidableEq

/-- How both executors convert the transport outcome: a completed
exchange becomes a RestResponse, a raised exception becomes the
displayed error string. -/
def transportResult : Transport → Except String RestResponse
  | .ok sc rp el hs body => .ok ⟨sc, rp, el, hs, body⟩
  | .exn m => .error m

/-- The request a REST invocation hands to the transport: httpx receives
headers-or-None and content-or-None (empty dict and empty string are
sent as absent). -/
structure RestSent where
  method : String
  url : String
  headers : Option (List (String × String))
  content : Option String
deriving Repr, DecidableEq

/-- Python values as returned by json.loads; Py.none is Python None,
produced by the JSON literal null. -/
inductive Py where
  | none
  | bool (b : Bool)
  | int (n : Int)
  | str (s : String)
  | list (xs : List Py)
  | obj (fields : List (String × Py))

/-- The request a GraphQL invocation hands to the transport: the POST
target, headers-or-None, and the JSON payload in insertion order. -/
structure GqlSent where
  url : String
  headers : Option (List (String × String))
  payload : List (String × Py)

/-- Embeds _send_rest_request (src/app.py lines 198-233).  The first
component records the request handed to the network, none when
validation failed before any network activity; the second component is
what the response panel displays.  Widget reads and display updates are
the presentation boundary. -/
def send_rest_request (method url_raw headers_raw body : String) (t : Transport) :
    Option RestSent × Except String RestResponse :=
  let url := pyStrip url_raw
  if url = "" then (none, .error "Please provide a request URL.")
  else
    match parse_headers headers_raw with
    | .error e => (none, .error e)
    | .ok headers =>
      (some { method := method, url := url,
              headers := if headers = [] then none else some headers,
              content := if body = "" then none else some body },
       transportResult t)

/-- Embeds _send_graphql_request (src/app.py lines 235-287).  json.loads
is the decode boundary, passed in as loads; a Python None result (the
JSON literal null) is Py.none.  The variables key is added to the
payload only when the decoded value is not None. -/
def send_graphql_request (url_raw query_raw headers_raw variables_raw : String)
    (loads : String → Except String Py) (t : Transport) :
    Option GqlSent × Except String RestResponse :=
  let url := pyStrip url_raw
  let query := pyStrip query_raw
  if url = "" then (none, .error "Please provide an endpoint URL.")
  else if query = "" then (none, .error "GraphQL query is required.")
  else
    match parse_headers headers_raw with
    | .error e => (none, .error e)
    | .ok headers =>
      let vres : Except String Py :=
        if pyStrip variables_raw = "" then .ok Py.none else loads variables_raw
      match vres with
      | .error e => (none, .error ("Variables must be valid JSON: " ++ e))
      | .ok v =>
        let payload :=
          [("query", Py.str query)] ++
            (match v with
             | Py.none => []
             | _ => [("variables", v)])
        (some { url := url,
                headers := if headers = [] then none else some headers,
                payload := payload },
         transportResult t)

/-! ## WebSocket session manager -/

/-- The session-relevant fields of the application: the connection
handle and receive-task reference (src/app.py lines 83-89), the
activity log, and the status bar text. -/
structure WsState where
  conn : Option Nat
  receiver : Option Nat
  log : List String
  status : String
deriving Repr, DecidableEq

/-- Application state right after construction (src/app.py lines 86-89). -/
def wsInit : WsState :=
  { conn := none, receiver := none, log := [], status := "Ready" }

/-- Embeds the part of _connect_websocket (src/app.py lines 289-310) up
to the handshake suspension point: URL check, already-connected guard,
header parsing, then status update and log clear.  Returns the new
state and, when validation passed, the stripped URL and parsed headers
handed to websockets.connect. -/
def connect_phase1 (url_raw headers_raw : String) (st : WsState) :
    WsState × Option (String × List (String × String)) :=
  let url := pyStrip url_raw
  if url = "" then
    ({ st with log := st.log ++ ["Please provide a WebSocket URL."] }, none)
  else if st.conn.isSome then
    ({ st with log := st.log ++ ["Already connected. Disconnect first."] }, none)
  else
    match parse_headers headers_raw with
    | .error e => ({ st with log := st.log ++ ["[red]Header error:[/red] " ++ e] }, none)
    | .ok headers =>
      ({ st with status := "Connecting to " ++ url, log := [] }, some (url, headers))

/-- Embeds the part of _connect_websocket after the handshake suspension
(src/app.py lines 311-321): on failure the handle is reset and the
error logged; on success the handle is stored, the connection is
logged, and the receive task is created. -/
def connect_phase2 (url : String) (outcome : Except String Nat) (st : WsState) : WsState :=
  match outcome with
  | .error e =>
    { st with conn := none, status := "WebSocket connection failed",
              log := st.log ++ ["[red]Connection error:[/red] " ++ e] }
  | .ok c =>
    { st with conn := some c, status := "WebSocket connected",
              log := st.log ++ ["[green]Connected to " ++ url ++ "[/green]"],
              receiver := some c }

/-- How the receive loop terminates: a clean remote close carrying the
close code, any other receive exception, or cancellation from an
explicit disconnect (CancelledError, which the except clause does not
catch but the finally clause still runs for). -/
inductive RecvEnd where
  | closed (code : Nat)
  | failed (msg : String)
  | cancelled
deriving Repr, DecidableEq

/-- Log line written for one inbound message (src/app.py line 328). -/
def recvMsgLine (m : String) : String :=
  "[cyan]<-[/cyan] " ++ m

/-- Log lines written by the termination handlers of the receive loop
(src/app.py lines 329-332); cancellation writes nothing. -/
def recvEndLog : RecvEnd → List String
  | .closed code => ["[yellow]Connection closed (" ++ toString code ++ ")[/yellow]"]
  | .failed msg => ["[red]Receiver error:[/red] " ++ msg]
  | .cancelled => []

/-- Embeds _receive_websocket_messages (src/app.py lines 323-336) as a
whole run: the messages received before termination, the termination
cause, and the state at loop entry.  The leading assert is the error
branch; otherwise each message is logged in arrival order, the
termination handler logs its line, and the finally clause clears the
connection handle and task reference and sets the status. -/
def receive_websocket_messages (msgs : List String) (e : RecvEnd) (st : WsState) :
    Except String WsState :=
  if st.conn.isNone then .error "AssertionError"
  else .ok { st with
    log := st.log ++ msgs.map recvMsgLine ++ recvEndLog e,
    conn := none, receiver := none, status := "WebSocket disconnected" }

/-- The states of the receive loop at its suspension points: after each
inbound message is logged, before the next receive suspends. -/
def recv_intermediates : List String → WsState → List WsState
  | [], _ => []
  | m :: ms, st =>
    let st1 := { st with log := st.log ++ [recvMsgLine m] }
    st1 :: recv_intermediates ms st1

/-- Embeds _disconnect_websocket (src/app.py lines 338-350).  The close
call is the library boundary, passed in as its outcome.  Returns the
new state, whether cancel was requested on the receive task, and the
exception that propagates to the caller: the try/finally has no except
clause, so a close exception re-raises after the finally clause runs. -/
def disconnect_websocket (close_result : Except String Unit) (st : WsState) :
    WsState × Bool × Option String :=
  match st.conn with
  | none => ({ st with log := st.log ++ ["No active connection."] }, false, none)
  | some _ =>
    ({ st with conn := none, status := "WebSocket disconnected",
               log := st.log ++ ["[yellow]Disconnected[/yellow]"] },
     st.receiver.isSome,
     match close_result with
     | .ok _ => none
     | .error e => some e)

/-- Embeds _send_websocket_message (src/app.py lines 352-367).  The
boolean records whether a network send was attempted; the send call is
the library boundary, passed in as its outcome. -/
def send_websocket_message (message : String) (send_result : Except String Unit) (st : WsState) :
    WsState × Bool :=
  if st.conn.isNone then
    ({ st with log := st.log ++ ["Connect before sending messages."] }, false)
  else if message = "" then
    ({ st with log := st.log ++ ["Message is empty."] }, false)
  else
    match send_result with
    | .ok _ => ({ st with log := st.log ++ ["[magenta]->[/magenta] " ++ message] }, true)
    | .error e => ({ st with log := st.log ++ ["[red]Send error:[/red] " ++ e] }, true)

/-- The REST dispatch at the application level, including its writes to
the shared StatusIndicator, which this embedding carries as the status
field of the session state.  Validation failures (src/app.py lines
206-214) return before any status write; a network-reaching invocation
writes Sending at line 216 and then overwrites it, before the method
returns, with Request failed (line 221) or the Received line (line
225), so the returned state carries the final status text.  The source
renders the elapsed float with two decimals; the embedding carries
whole milliseconds, as in RestResponse.  The connection handle, task
reference, and activity log are never referenced by the method.  The
request and displayed outcome agree with send_rest_request. -/
def app_send_rest (method url_raw headers_raw body : String) (t : Transport) (ws : WsState) :
    WsState × Option RestSent × Except String RestResponse :=
  let url := pyStrip url_raw
  if url = "" then (ws, none, .error "Please provide a request URL.")
  else
    match parse_headers headers_raw with
    | .error e => (ws, none, .error e)
    | .ok headers =>
      let sent : RestSent :=
        { method := method, url := url,
          headers := if headers = [] then none else some headers,
          content := if body = "" then none else some body }
      match t with
      | .exn m => ({ ws with status := "Request failed" }, some sent, .error m)
      | .ok sc rp el hs b =>
        ({ ws with status := "Received " ++ toString sc ++ " in " ++ toString el ++ " ms" },
         some sent, .ok ⟨sc, rp, el, hs, b⟩)

/-- The GraphQL dispatch at the application level, including its writes
to the shared StatusIndicator carried as the status field.  Validation
failures (src/app.py lines 243-262) return before any status write; a
network-reaching invocation writes the Posting line at line 270 and
then overwrites it, before the method returns, with GraphQL request
failed (line 275) or the GraphQL status line (line 279).  The
connection handle, task reference, and activity log are never
referenced by the method.  The request and displayed outcome agree
with send_graphql_request. -/
def app_send_graphql (url_raw query_raw headers_raw variables_raw : String)
    (loads : String → Except String Py) (t : Transport) (ws : WsState) :
    WsState × Option GqlSent × Except String RestResponse :=
  let url := pyStrip url_raw
  let query := pyStrip query_raw
  if url = "" then (ws, none, .error "Please provide an endpoint URL.")
  else if query = "" then (ws, none, .error "GraphQL query is required.")
  else
    match parse_headers headers_raw with
    | .error e => (ws, none, .error e)
    | .ok headers =>
      let vres : Except String Py :=
        if pyStrip variables_raw = "" then .ok Py.none else loads variables_raw
      match vres with
      | .error e => (ws, none, .error ("Variables must be valid JSON: " ++ e))
      | .ok v =>
        let payload :=
          [("query", Py.str query)] ++
            (match v with
             | Py.none => []
             | _ => [("variables", v)])
        let sent : GqlSent :=
          { url := url, headers := if headers = [] then none else some headers,
            payload := payload }
        match t with
        | .exn m => ({ ws with status := "GraphQL request failed" }, some sent, .error m)
        | .ok sc rp el hs b =>
          ({ ws with status := "GraphQL " ++ toString sc }, some sent, .ok ⟨sc, rp, el, hs, b⟩)

/-! ## Helper lemmas about stripping and the parser loop -/

theorem head?_dropWhile_false {p : Char → Bool} {l : List Char} :
    ∀ x ∈ (l.dropWhile p).head?, p x = false := by
  induction l with
  | nil => intro x hx; simp [List.dropWhile] at hx
  | cons c cs ih =>
    intro x hx
    rw [List.dropWhile_cons] at hx
    by_cases h : p c = true
    · rw [if_pos h] at hx
      exact ih x hx
    · rw [if_neg h] at hx
      simp only [List.head?_cons, Option.mem_def, Option.some.injEq] at hx
      subst hx
      simpa using h

theorem dropWhile_eq_self_of_head {p : Char → Bool} {l : List Char}
    (h : ∀ x ∈ l.head?, p x = false) : l.dropWhile p = l := by
  cases l with
  | nil => rfl
  | cons c cs =>
    have hc := h c (by simp)
    rw [List.dropWhile_cons, if_neg (by simp [hc])]

theorem getLast?_dropWhile {p : Char → Bool} {l : List Char}
    (h : l.dropWhile p ≠ []) : (l.dropWhile p).getLast? = l.getLast? := by
  induction l with
  | nil => simp [List.dropWhile] at h
  | cons c cs ih =>
    rw [List.dropWhile_cons] at h ⊢
    by_cases hp : p c = true
    · rw [if_pos hp] at h ⊢
      have hcs : cs ≠ [] := by
        intro hnil
        rw [hnil] at h
        simp [List.dropWhile] at h
      rw [ih h]
      cases cs with
      | nil => exact absurd rfl hcs
      | cons d ds => rw [List.getLast?_cons_cons]
    · rw [if_neg hp]

theorem stripL_idem (l : List Char) : stripL (stripL l) = stripL l := by
  show stripL (((l.dropWhile pyWS).reverse.dropWhile pyWS).reverse) =
    ((l.dropWhile pyWS).reverse.dropWhile pyWS).reverse
  generalize hA : l.dropWhile pyWS = a
  generalize hB : a.reverse.dropWhile pyWS = b
  by_cases hbnil : b = []
  · subst hbnil; rfl
  · have hheadA : ∀ x ∈ a.head?, pyWS x = false := by
      intro x hx
      exact head?_dropWhile_false x (hA ▸ hx)
    have hheadB : ∀ x ∈ b.head?, pyWS x = false := by
      intro x hx
      exact head?_dropWhile_false x (hB ▸ hx)
    have h1 : b.reverse.dropWhile pyWS = b.reverse := by
      apply dropWhile_eq_self_of_head
      intro x hx
      rw [List.head?_reverse] at hx
      have hlast : b.getLast? = a.reverse.getLast? := by
        rw [← hB]
        exact getLast?_dropWhile (hB ▸ hbnil)
      rw [hlast, List.getLast?_reverse] at hx
      exact hheadA x hx
    show ((b.reverse.dropWhile pyWS).reverse.dropWhile pyWS).reverse = b.reverse
    rw [h1, List.reverse_reverse, dropWhile_eq_self_of_head hheadB]

theorem mem_insertOverwrite {acc : List (String × String)} {k v : String} :
    ∀ kv ∈ insertOverwrite acc k v, kv = (k, v) ∨ kv ∈ acc := by
  induction acc with
  | nil =>
    intro kv hkv
    simp only [insertOverwrite, List.mem_singleton] at hkv
    exact .inl hkv
  | cons p rest ih =>
    intro kv hkv
    obtain ⟨k1, v1⟩ := p
    simp only [insertOverwrite] at hkv
    by_cases h : k1 = k
    · rw [if_pos h] at hkv
      rcases List.mem_cons.mp hkv with h1 | h1
      · exact .inl h1
      · exact .inr (List.mem_cons_of_mem _ h1)
    · rw [if_neg h] at hkv
      rcases List.mem_cons.mp hkv with h1 | h1
      · exact .inr (h1 ▸ List.mem_cons_self _ _)
      · rcases ih kv h1 with h2 | h2
        · exact .inl h2
        · exact .inr (List.mem_cons_of_mem _ h2)

theorem lookupKey_insertOverwrite_self (acc : List (String × String)) (k v : String) :
    lookupKey (insertOverwrite acc k v) k = some v := by
  induction acc with
  | nil => simp [insertOverwrite, lookupKey]
  | cons p rest ih =>
    obtain ⟨k1, v1⟩ := p
    by_cases h : k1 = k
    · simp [insertOverwrite, h, lookupKey]
    · simp [insertOverwrite, h, lookupKey, ih]

theorem lookupKey_insertOverwrite_ne (acc : List (String × String)) (k v k0 : String)
    (h : k ≠ k0) : lookupKey (insertOverwrite acc k v) k0 = lookupKey acc k0 := by
  induction acc with
  | nil => simp [insertOverwrite, lookupKey, h]
  | cons p rest ih =>
    obtain ⟨k1, v1⟩ := p
    by_cases h1 : k1 = k
    · subst h1
      simp only [insertOverwrite, if_pos rfl, lookupKey]
      rw [if_neg h, if_neg h]
    · simp only [insertOverwrite, if_neg h1, lookupKey]
      by_cases h2 : k1 = k0
      · rw [if_pos h2, if_pos h2]
      · rw [if_neg h2, if_neg h2, ih]

theorem lookupKey_mem {xs : List (String × String)} {k v : String}
    (h : lookupKey xs k = some v) : (k, v) ∈ xs := by
  induction xs with
  | nil => simp [lookupKey] at h
  | cons p rest ih =>
    obtain ⟨k1, v1⟩ := p
    by_cases h1 : k1 = k
    · rw [lookupKey, if_pos h1] at h
      injection h with h2
      subst h1
      subst h2
      exact List.mem_cons_self _ _
    · rw [lookupKey, if_neg h1] at h
      exact List.mem_cons_of_mem _ (ih h)

theorem parseLines_ok {ls : List (List Char)} :
    ∀ acc, (∀ l ∈ ls, stripL l ≠ [] → l.contains ':' = true) →
      ∃ hs, parseLines ls acc = .ok hs := by
  induction ls with
  | nil => intro acc _; exact ⟨acc, rfl⟩
  | cons l ls ih =>
    intro acc h
    simp only [parseLines]
    by_cases hb : stripL l = []
    · rw [if_pos hb]
      exact ih acc (fun x hx => h x (List.mem_cons_of_mem _ hx))
    · have hc := h l (List.mem_cons_self _ _) hb
      rw [if_neg hb, if_pos hc]
      exact ih _ (fun x hx => h x (List.mem_cons_of_mem _ hx))

theorem parseLines_mem {ls : List (List Char)} :
    ∀ {acc hs}, parseLines ls acc = .ok hs →
      ∀ kv ∈ hs, kv ∈ acc ∨
        ∃ l, l ∈ ls ∧ stripL l ≠ [] ∧ l.contains ':' = true ∧ kv = (keyL l, valL l) := by
  induction ls with
  | nil =>
    intro acc hs h kv hkv
    simp only [parseLines] at h
    cases h
    exact .inl hkv
  | cons l ls ih =>
    intro acc hs h kv hkv
    simp only [parseLines] at h
    by_cases hb : stripL l = []
    · rw [if_pos hb] at h
      rcases ih h kv hkv with h1 | ⟨l1, hl1, r1, r2, r3⟩
      · exact .inl h1
      · exact .inr ⟨l1, List.mem_cons_of_mem _ hl1, r1, r2, r3⟩
    · rw [if_neg hb] at h
      by_cases hc : l.contains ':' = true
      · rw [if_pos hc] at h
        rcases ih h kv hkv with h1 | ⟨l1, hl1, r1, r2, r3⟩
        · rcases mem_insertOverwrite kv h1 with h2 | h2
          · exact .inr ⟨l, List.mem_cons_self _ _, hb, hc, h2⟩
          · exact .inl h2
        · exact .inr ⟨l1, List.mem_cons_of_mem _ hl1, r1, r2, r3⟩
      · rw [if_neg hc] at h
        cases h

theorem parseLines_lookup_mono {ls : List (List Char)} :
    ∀ {acc hs k}, parseLines ls acc = .ok hs →
      (lookupKey acc k).isSome = true → (lookupKey hs k).isSome = true := by
  induction ls with
  | nil =>
    intro acc hs k h hk
    simp only [parseLines] at h
    cases h
    exact hk
  | cons l ls ih =>
    intro acc hs k h hk
    simp only [parseLines] at h
    by_cases hb : stripL l = []
    · rw [if_pos hb] at h
      exact ih h hk
    · rw [if_neg hb] at h
      by_cases hc : l.contains ':' = true
      · rw [if_pos hc] at h
        apply ih h
        by_cases hkk : keyL l = k
        · subst hkk
          rw [lookupKey_insertOverwrite_self]
          rfl
        · rw [lookupKey_insertOverwrite_ne _ _ _ _ hkk]
          exact hk
      · rw [if_neg hc] at h
        cases h

theorem parseLines_maps {ls : List (List Char)} :
    ∀ {acc hs}, parseLines ls acc = .ok hs →
      ∀ l ∈ ls, stripL l ≠ [] → (lookupKey hs (keyL l)).isSome = true := by
  induction ls with
  | nil => intro acc hs _ l hl; cases hl
  | cons l0 ls ih =>
    intro acc hs h l hl hb
    simp only [parseLines] at h
    by_cases hb0 : stripL l0 = []
    · rw [if_pos hb0] at h
      rcases List.mem_cons.mp hl with rfl | hl1
      · exact absurd hb0 hb
      · exact ih h l hl1 hb
    · rw [if_neg hb0] at h
      by_cases hc0 : l0.contains ':' = true
      · rw [if_pos hc0] at h
        rcases List.mem_cons.mp hl with rfl | hl1
        · apply parseLines_lookup_mono h
          rw [lookupKey_insertOverwrite_self]
          rfl
        · exact ih h l hl1 hb
      · rw [if_neg hc0] at h
        cases h

theorem parseLines_firstBad {ls : List (List Char)} :
    ∀ {acc l0}, ls.find? badLine = some l0 →
      parseLines ls acc = .error ("Invalid header line (missing colon): " ++ String.mk l0) := by
  induction ls with
  | nil => intro acc l0 h; simp at h
  | cons l ls ih =>
    intro acc l0 h
    by_cases hb : stripL l = []
    · have hbad : ¬ badLine l = true := by
        unfold badLine
        rw [hb]
        simp
      rw [List.find?_cons_of_neg _ hbad] at h
      simp only [parseLines]
      rw [if_pos hb]
      exact ih h
    · by_cases hc : l.contains ':' = true
      · have hbad : ¬ badLine l = true := by
          unfold badLine
          rw [hc]
          simp
        rw [List.find?_cons_of_neg _ hbad] at h
        simp only [parseLines]
        rw [if_neg hb, if_pos hc]
        exact ih h
      · have hc2 : l.contains ':' = false := Bool.eq_false_iff.mpr hc
        have he2 : (stripL l).isEmpty = false := by
          cases he : (stripL l).isEmpty
          · rfl
          · exact absurd (List.isEmpty_iff.mp he) hb
        have hbad : badLine l = true := by
          unfold badLine
          rw [hc2, he2]
          rfl
        rw [List.find?_cons_of_pos _ hbad] at h
        cases h
        simp only [parseLines]
        rw [if_neg hb, if_neg hc]

/-! ## Claim theorems -/

/-- Claim C5: for every header text whose non-blank lines each contain a
colon, parse_headers succeeds; every emitted key and value is stripped of
leading and trailing whitespace; each non-blank line's key (text before
its first colon, stripped) is mapped, and the value it is mapped to is
the stripped text after the first colon of a line with that same key;
and the concrete input of Scenario A parses to exactly the expected
dictionary, with the value keeping its inner colon. -/
theorem parse_headers_success :
    (∀ raw : String,
      (∀ l ∈ splitlinesL raw.data, stripL l ≠ [] → l.contains ':' = true) →
      ∃ hs, parse_headers raw = .ok hs ∧
        (∀ kv ∈ hs, pyStrip kv.1 = kv.1 ∧ pyStrip kv.2 = kv.2) ∧
        (∀ l ∈ splitlinesL raw.data, stripL l ≠ [] →
          ∃ v, lookupKey hs (keyL l) = some v ∧
            ∃ l1, l1 ∈ splitlinesL raw.data ∧ stripL l1 ≠ [] ∧
              keyL l1 = keyL l ∧ v = valL l1)) ∧
    parse_headers "Authorization: Bearer abc:123\nX-Test:   1  " =
      .ok [("Authorization", "Bearer abc:123"), ("X-Test", "1")] := by
  constructor
  · intro raw hgood
    obtain ⟨hs, hok⟩ := parseLines_ok [] hgood
    refine ⟨hs, hok, ?_, ?_⟩
    · intro kv hkv
      rcases parseLines_mem hok kv hkv with h1 | ⟨l1, _, _, _, h4⟩
      · cases h1
      · subst h4
        exact ⟨congrArg String.mk (stripL_idem _), congrArg String.mk (stripL_idem _)⟩
    · intro l hl hb
      have hsome := parseLines_maps hok l hl hb
      obtain ⟨v, hv⟩ := Option.isSome_iff_exists.mp hsome
      refine ⟨v, hv, ?_⟩
      have hmem := lookupKey_mem hv
      rcases parseLines_mem hok _ hmem with h1 | ⟨l1, m1, m2, _, h4⟩
      · cases h1
      · exact ⟨l1, m1, m2, (congrArg Prod.fst h4).symm, congrArg Prod.snd h4⟩
  · decide

/-- Witness for C5 at the Scenario A input. -/
theorem parse_headers_success_witness :
    ∃ hs, parse_headers "Authorization: Bearer abc:123\nX-Test:   1  " = .ok hs ∧
      (∀ kv ∈ hs, pyStrip kv.1 = kv.1 ∧ pyStrip kv.2 = kv.2) ∧
      (∀ l ∈ splitlinesL "Authorization: Bearer abc:123\nX-Test:   1  ".data,
        stripL l ≠ [] →
        ∃ v, lookupKey hs (keyL l) = some v ∧
          ∃ l1, l1 ∈ splitlinesL "Authorization: Bearer abc:123\nX-Test:   1  ".data ∧
            stripL l1 ≠ [] ∧ keyL l1 = keyL l ∧ v = valL l1) :=
  parse_headers_success.1 "Authorization: Bearer abc:123\nX-Test:   1  " (by decide)

/-- Claim C6: whenever some non-blank line of the header text lacks a
colon, parse_headers fails, citing verbatim the first such line (find?
returns the first match): parsing stops at the first failure and no
incomplete dictionary is produced; determinism is immediate because
parse_headers is a pure function.  The concrete input of Scenario B
fails citing the line itself. -/
theorem parse_headers_first_error :
    (∀ (raw : String) (l0 : List Char),
      (splitlinesL raw.data).find? badLine = some l0 →
      parse_headers raw = .error ("Invalid header line (missing colon): " ++ String.mk l0)) ∧
    parse_headers "bad line" = .error "Invalid header line (missing colon): bad line" := by
  constructor
  · intro raw l0 h
    exact parseLines_firstBad h
  · decide

/-- Witness for C6: on an input with a valid line, then two colon-free
lines, the error cites the first offending line. -/
theorem parse_headers_first_error_witness :
    parse_headers "ok: 1\nbad line\nworse line" =
      .error ("Invalid header line (missing colon): " ++ String.mk "bad line".data) :=
  parse_headers_first_error.1 "ok: 1\nbad line\nworse line" "bad line".data (by decide)

theorem except_ok_or_error (x : Except String RestResponse) :
    (∃ r, x = .ok r) ↔ ¬ ∃ e, x = .error e := by
  cases x with
  | error e => simp
  | ok r => simp

/-- Claim C1: both executors are total functions into the sum of a
completed RestResponse and a displayed error string, so every
invocation, whatever the inputs, the decode function, and the transport
outcome (including transport exceptions), produces exactly one of the
two, never zero and never both; no exception escapes the embedded
boundary because every Python path, validation failure and transport
failure included, is mapped to one of the two constructors. -/
theorem executor_exactly_one_outcome :
    ∀ (method url_raw headers_raw body gu gq gh gv : String)
      (t t2 : Transport) (loads : String → Except String Py),
      ((∃ r, (send_rest_request method url_raw headers_raw body t).2 = .ok r) ↔
        ¬ ∃ e, (send_rest_request method url_raw headers_raw body t).2 = .error e) ∧
      ((∃ r, (send_graphql_request gu gq gh gv loads t2).2 = .ok r) ↔
        ¬ ∃ e, (send_graphql_request gu gq gh gv loads t2).2 = .error e) :=
  fun _ _ _ _ _ _ _ _ _ _ _ => ⟨except_ok_or_error _, except_ok_or_error _⟩

/-- Witness for C1 at concrete inputs. -/
theorem executor_exactly_one_outcome_witness :
    ((∃ r, (send_rest_request "GET" "http://e" "" "" (.exn "refused")).2 = .ok r) ↔
      ¬ ∃ e, (send_rest_request "GET" "http://e" "" "" (.exn "refused")).2 = .error e) ∧
    ((∃ r, (send_graphql_request "http://e" "q" "" ""
        (fun _ => .error "unused") (.ok 200 "OK" 5 [] "resp")).2 = .ok r) ↔
      ¬ ∃ e, (send_graphql_request "http://e" "q" "" ""
        (fun _ => .error "unused") (.ok 200 "OK" 5 [] "resp")).2 = .error e) :=
  executor_exactly_one_outcome "GET" "http://e" "" "" "http://e" "q" "" ""
    (.exn "refused") (.ok 200 "OK" 5 [] "resp") (fun _ => .error "unused")

/-- Claim C7: a GraphQL invocation whose variables text is empty or
whitespace-only, with a non-empty URL and query and parseable headers,
reaches the network without consulting the JSON decoder (the conclusion
holds for every loads function), and the outgoing payload is exactly
the query key with the stripped query text and no variables key; the
displayed outcome is exactly the transport outcome, so no decode error
is raised. -/
theorem graphql_empty_variables_omitted
    (url_raw query_raw headers_raw variables_raw : String)
    (loads : String → Except String Py) (t : Transport) (hs : List (String × String))
    (hv : pyStrip variables_raw = "") (hu : pyStrip url_raw ≠ "") (hq : pyStrip query_raw ≠ "")
    (hh : parse_headers headers_raw = .ok hs) :
    send_graphql_request url_raw query_raw headers_raw variables_raw loads t =
      (some { url := pyStrip url_raw,
              headers := if hs = [] then none else some hs,
              payload := [("query", Py.str (pyStrip query_raw))] },
       transportResult t) := by
  simp [send_graphql_request, hu, hq, hh, hv]

/-- Witness for C7 at Scenario C inputs: whitespace-only variables text,
with a loads function that would reject anything it were given. -/
theorem graphql_empty_variables_omitted_witness :
    send_graphql_request "http://e" " q " "A: b" "   " (fun _ => .error "unused") (.exn "refused") =
      (some { url := pyStrip "http://e",
              headers := if ([("A", "b")] : List (String × String)) = [] then none
                         else some [("A", "b")],
              payload := [("query", Py.str (pyStrip " q "))] },
       transportResult (.exn "refused")) :=
  graphql_empty_variables_omitted "http://e" " q " "A: b" "   "
    (fun _ => .error "unused") (.exn "refused") [("A", "b")]
    (by decide) (by decide) (by decide) (by decide)

/-- Claim C10: a GraphQL invocation whose variables text is non-empty
after stripping and decodes to the JSON literal null (Python None) is
not a decode error: the request is sent and the payload omits the
variables key entirely, exactly as when no variables text was given;
the displayed outcome is exactly the transport outcome. -/
theorem graphql_null_variables_omitted
    (url_raw query_raw headers_raw variables_raw : String)
    (loads : String → Except String Py) (t : Transport) (hs : List (String × String))
    (hv : pyStrip variables_raw ≠ "") (hl : loads variables_raw = .ok Py.none)
    (hu : pyStrip url_raw ≠ "") (hq : pyStrip query_raw ≠ "")
    (hh : parse_headers headers_raw = .ok hs) :
    send_graphql_request url_raw query_raw headers_raw variables_raw loads t =
      (some { url := pyStrip url_raw,
              headers := if hs = [] then none else some hs,
              payload := [("query", Py.str (pyStrip query_raw))] },
       transportResult t) := by
  simp [send_graphql_request, hu, hq, hh, hv, hl]

/-- Witness for C10: variables text is the five characters of the JSON
literal null surrounded by nothing, decoded to Python None. -/
theorem graphql_null_variables_omitted_witness :
    send_graphql_request "http://e" "q" "" "null"
      (fun s => if pyStrip s = "null" then .ok Py.none else .error "bad") (.ok 200 "OK" 5 [] "resp") =
      (some { url := pyStrip "http://e",
              headers := if ([] : List (String × String)) = [] then none else some [],
              payload := [("query", Py.str (pyStrip "q"))] },
       transportResult (.ok 200 "OK" 5 [] "resp")) :=
  graphql_null_variables_omitted "http://e" "q" "" "null"
    (fun s => if pyStrip s = "null" then .ok Py.none else .error "bad") (.ok 200 "OK" 5 [] "resp") []
    (by decide) (by rfl) (by decide) (by decide) (by rfl)

theorem app_send_rest_agrees (m u hr b : String) (t : Transport) (ws : WsState) :
    (app_send_rest m u hr b t ws).2 = send_rest_request m u hr b t := by
  by_cases hu : pyStrip u = ""
  · simp [app_send_rest, send_rest_request, hu]
  · cases hp : parse_headers hr with
    | error e => simp [app_send_rest, send_rest_request, hu, hp]
    | ok headers =>
      cases t <;> simp [app_send_rest, send_rest_request, hu, hp, transportResult]

theorem app_send_graphql_agrees (u q hr v : String) (loads : String → Except String Py)
    (t : Transport) (ws : WsState) :
    (app_send_graphql u q hr v loads t ws).2 = send_graphql_request u q hr v loads t := by
  by_cases hu : pyStrip u = ""
  · simp [app_send_graphql, send_graphql_request, hu]
  · by_cases hq : pyStrip q = ""
    · simp [app_send_graphql, send_graphql_request, hu, hq]
    · cases hp : parse_headers hr with
      | error e => simp [app_send_graphql, send_graphql_request, hu, hq, hp]
      | ok headers =>
        by_cases hv : pyStrip v = ""
        · cases t <;>
            simp [app_send_graphql, send_graphql_request, hu, hq, hp, hv, transportResult]
        · cases hl : loads v with
          | error e => simp [app_send_graphql, send_graphql_request, hu, hq, hp, hv, hl]
          | ok pv =>
            cases t <;>
              simp [app_send_graphql, send_graphql_request, hu, hq, hp, hv, hl, transportResult]

theorem app_send_rest_frame (m u hr b : String) (t : Transport) (ws : WsState)
    (h : (app_send_rest m u hr b t ws).2.1 = none) :
    (app_send_rest m u hr b t ws).1 = ws := by
  by_cases hu : pyStrip u = ""
  · simp [app_send_rest, hu]
  · cases hp : parse_headers hr with
    | error e => simp [app_send_rest, hu, hp]
    | ok headers =>
      exfalso
      cases t <;> simp [app_send_rest, hu, hp] at h

theorem app_send_graphql_frame (u q hr v : String) (loads : String → Except String Py)
    (t : Transport) (ws : WsState)
    (h : (app_send_graphql u q hr v loads t ws).2.1 = none) :
    (app_send_graphql u q hr v loads t ws).1 = ws := by
  by_cases hu : pyStrip u = ""
  · simp [app_send_graphql, hu]
  · by_cases hq : pyStrip q = ""
    · simp [app_send_graphql, hu, hq]
    · cases hp : parse_headers hr with
      | error e => simp [app_send_graphql, hu, hq, hp]
      | ok headers =>
        by_cases hv : pyStrip v = ""
        · exfalso
          cases t <;> simp [app_send_graphql, hu, hq, hp, hv] at h
        · cases hl : loads v with
          | error e => simp [app_send_graphql, hu, hq, hp, hv, hl]
          | ok pv =>
            exfalso
            cases t <;> simp [app_send_graphql, hu, hq, hp, hv, hl] at h

/-- Claim C8: validation runs in the source's fixed order with
short-circuiting, and a validation failure yields the error with no
request handed to the transport (the sent component is none) and no
change to the session state.  Conjuncts one to six quantify over the
later inputs, so each error takes priority over any later-invalid
input: URL before headers for REST; URL, then query, then headers,
then variables for GraphQL.  The next two conjuncts say the
application dispatch, which also carries the status-bar writes of the
network-reaching paths, produces the same request and outcome as the
executor; the last two say that whenever no request was handed to the
transport, that is on exactly the validation-failure paths, the
session state, status bar included, is passed through untouched. -/
theorem validation_order_short_circuit :
    (∀ m u hr b t, pyStrip u = "" →
      send_rest_request m u hr b t = (none, .error "Please provide a request URL.")) ∧
    (∀ m u hr b t e, pyStrip u ≠ "" → parse_headers hr = .error e →
      send_rest_request m u hr b t = (none, .error e)) ∧
    (∀ u q hr v loads t, pyStrip u = "" →
      send_graphql_request u q hr v loads t = (none, .error "Please provide an endpoint URL.")) ∧
    (∀ u q hr v loads t, pyStrip u ≠ "" → pyStrip q = "" →
      send_graphql_request u q hr v loads t = (none, .error "GraphQL query is required.")) ∧
    (∀ u q hr v loads t e, pyStrip u ≠ "" → pyStrip q ≠ "" → parse_headers hr = .error e →
      send_graphql_request u q hr v loads t = (none, .error e)) ∧
    (∀ u q hr v loads t hs e, pyStrip u ≠ "" → pyStrip q ≠ "" → parse_headers hr = .ok hs →
      pyStrip v ≠ "" → loads v = .error e →
      send_graphql_request u q hr v loads t =
        (none, .error ("Variables must be valid JSON: " ++ e))) ∧
    (∀ m u hr b t ws, (app_send_rest m u hr b t ws).2 = send_rest_request m u hr b t) ∧
    (∀ u q hr v loads t ws,
      (app_send_graphql u q hr v loads t ws).2 = send_graphql_request u q hr v loads t) ∧
    (∀ m u hr b t ws, (app_send_rest m u hr b t ws).2.1 = none →
      (app_send_rest m u hr b t ws).1 = ws) ∧
    (∀ u q hr v loads t ws, (app_send_graphql u q hr v loads t ws).2.1 = none →
      (app_send_graphql u q hr v loads t ws).1 = ws) := by
  refine ⟨?_, ?_, ?_, ?_, ?_, ?_, ?_, ?_, ?_, ?_⟩
  · intro m u hr b t h
    simp [send_rest_request, h]
  · intro m u hr b t e h1 h2
    simp [send_rest_request, h1, h2]
  · intro u q hr v loads t h
    simp [send_graphql_request, h]
  · intro u q hr v loads t h1 h2
    simp [send_graphql_request, h1, h2]
  · intro u q hr v loads t e h1 h2 h3
    simp [send_graphql_request, h1, h2, h3]
  · intro u q hr v loads t hs e h1 h2 h3 h4 h5
    simp [send_graphql_request, h1, h2, h3, h4, h5]
  · intro m u hr b t ws
    exact app_send_rest_agrees m u hr b t ws
  · intro u q hr v loads t ws
    exact app_send_graphql_agrees u q hr v loads t ws
  · intro m u hr b t ws h
    exact app_send_rest_frame m u hr b t ws h
  · intro u q hr v loads t ws h
    exact app_send_graphql_frame u q hr v loads t ws h

/-- Witness for C8: one concrete input per conjunct; the validation
failures each have a later field also invalid to exhibit the priority
order, the agreement conjuncts are exercised on network-reaching
inputs, and the frame conjuncts on validation-failing inputs. -/
theorem validation_order_short_circuit_witness :
    send_rest_request "GET" "  " "bad line" "" (.exn "x") =
      (none, .error "Please provide a request URL.") ∧
    send_rest_request "GET" "http://e" "bad line" "" (.exn "x") =
      (none, .error "Invalid header line (missing colon): bad line") ∧
    send_graphql_request " " "" "bad line" "v" (fun _ => .error "nope") (.exn "x") =
      (none, .error "Please provide an endpoint URL.") ∧
    send_graphql_request "http://e" "  " "bad line" "v" (fun _ => .error "nope") (.exn "x") =
      (none, .error "GraphQL query is required.") ∧
    send_graphql_request "http://e" "q" "bad line" "v" (fun _ => .error "nope") (.exn "x") =
      (none, .error "Invalid header line (missing colon): bad line") ∧
    send_graphql_request "http://e" "q" "A: b" "notjson"
        (fun _ => .error "Expecting value") (.exn "x") =
      (none, .error ("Variables must be valid JSON: " ++ "Expecting value")) ∧
    (app_send_rest "GET" "http://e" "" "" (.ok 200 "OK" 5 [] "resp") wsInit).2 =
      send_rest_request "GET" "http://e" "" "" (.ok 200 "OK" 5 [] "resp") ∧
    (app_send_graphql "http://e" "q" "" "" (fun _ => .error "unused") (.exn "x") wsInit).2 =
      send_graphql_request "http://e" "q" "" "" (fun _ => .error "unused") (.exn "x") ∧
    (app_send_rest "GET" "  " "bad line" "" (.exn "x") wsInit).1 = wsInit ∧
    (app_send_graphql "http://e" "q" "bad line" "v"
      (fun _ => .error "nope") (.exn "x") wsInit).1 = wsInit := by
  refine ⟨?_, ?_, ?_, ?_, ?_, ?_, ?_, ?_, ?_, ?_⟩
  · exact validation_order_short_circuit.1 "GET" "  " "bad line" "" (.exn "x") (by decide)
  · exact validation_order_short_circuit.2.1 "GET" "http://e" "bad line" "" (.exn "x")
      "Invalid header line (missing colon): bad line" (by decide) (by decide)
  · exact validation_order_short_circuit.2.2.1 " " "" "bad line" "v"
      (fun _ => .error "nope") (.exn "x") (by decide)
  · exact validation_order_short_circuit.2.2.2.1 "http://e" "  " "bad line" "v"
      (fun _ => .error "nope") (.exn "x") (by decide) (by decide)
  · exact validation_order_short_circuit.2.2.2.2.1 "http://e" "q" "bad line" "v"
      (fun _ => .error "nope") (.exn "x") "Invalid header line (missing colon): bad line"
      (by decide) (by decide) (by decide)
  · exact validation_order_short_circuit.2.2.2.2.2.1 "http://e" "q" "A: b" "notjson"
      (fun _ => .error "Expecting value") (.exn "x") [("A", "b")] "Expecting value"
      (by decide) (by decide) (by decide) (by decide) (by rfl)
  · exact validation_order_short_circuit.2.2.2.2.2.2.1 "GET" "http://e" "" ""
      (.ok 200 "OK" 5 [] "resp") wsInit
  · exact validation_order_short_circuit.2.2.2.2.2.2.2.1 "http://e" "q" "" ""
      (fun _ => .error "unused") (.exn "x") wsInit
  · exact validation_order_short_circuit.2.2.2.2.2.2.2.2.1 "GET" "  " "bad line" ""
      (.exn "x") wsInit (by rfl)
  · exact validation_order_short_circuit.2.2.2.2.2.2.2.2.2 "http://e" "q" "bad line" "v"
      (fun _ => .error "nope") (.exn "x") wsInit (by rfl)

/-- Counterexample to claim C2: the disconnect path is a try/finally
with no except clause, so when the close call raises (here with message
boom) while a connection handle is present, the exception re-raises to
the caller after the finally clause has run: the propagated component
is not none, contradicting the claim that nothing escapes the
component boundary. -/
theorem disconnect_close_exception_escapes :
    (disconnect_websocket (.error "boom")
      { conn := some 0, receiver := some 0, log := [], status := "WebSocket connected" }).2.2 =
      some "boom" := rfl

/-- Claim C2 (amended): for every Disconnect call made while a
connection handle is present, whether or not the close call raises, the
manager clears the connection handle, requests cancellation of the
receive task exactly when one is active, sets the status to
disconnected, and emits the Disconnected log event; however an
exception from the close call propagates to the caller after this
teardown completes (it is not swallowed at the component boundary). -/
theorem disconnect_unconditional_teardown (close_result : Except String Unit)
    (st : WsState) (c : Nat) (h : st.conn = some c) :
    disconnect_websocket close_result st =
      ({ st with conn := none, status := "WebSocket disconnected",
                 log := st.log ++ ["[yellow]Disconnected[/yellow]"] },
       st.receiver.isSome,
       match close_result with
       | .ok _ => none
       | .error e => some e) := by
  simp [disconnect_websocket, h]

/-- Witness for C2 (amended) at a concrete connected state with a
failing close call. -/
theorem disconnect_unconditional_teardown_witness :
    disconnect_websocket (.error "closefail")
      { conn := some 3, receiver := some 3, log := ["old"], status := "WebSocket connected" } =
      ({ conn := none, receiver := some 3,
         log := ["old"] ++ ["[yellow]Disconnected[/yellow]"],
         status := "WebSocket disconnected" },
       true, some "closefail") := by
  have h := disconnect_unconditional_teardown (.error "closefail")
    { conn := some 3, receiver := some 3, log := ["old"], status := "WebSocket connected" } 3 rfl
  exact h

/-- Claim C3: a run of the receive loop that starts, as the loop always
does, with both the connection handle and the receive-task reference
present, never disturbs either at any of its suspension points, and on
every termination path (clean remote close with its code, receive
error, or cancellation) ends with both cleared; hence every observable
state of the run has the handle and the task reference both present or
both absent, and after termination both are absent. -/
theorem receive_loop_clears_state (msgs : List String) (e : RecvEnd) (st : WsState)
    (c r : Nat) (hc : st.conn = some c) (hr : st.receiver = some r) :
    ∃ st1, receive_websocket_messages msgs e st = .ok st1 ∧
      st1.conn = none ∧ st1.receiver = none ∧
      (∀ s ∈ recv_intermediates msgs st, s.conn = some c ∧ s.receiver = some r) ∧
      (∀ s ∈ recv_intermediates msgs st ++ [st1],
        (s.conn.isSome = true ∧ s.receiver.isSome = true) ∨
          (s.conn = none ∧ s.receiver = none)) := by
  have hinterm : ∀ st0 : WsState, st0.conn = some c → st0.receiver = some r →
      ∀ s ∈ recv_intermediates msgs st0, s.conn = some c ∧ s.receiver = some r := by
    induction msgs with
    | nil => intro st0 _ _ s hs; cases hs
    | cons m ms ih =>
      intro st0 h1 h2 s hs
      simp only [recv_intermediates] at hs
      rcases List.mem_cons.mp hs with rfl | hs1
      · exact ⟨h1, h2⟩
      · exact ih { st0 with log := st0.log ++ [recvMsgLine m] } h1 h2 s hs1
  refine ⟨{ st with log := st.log ++ msgs.map recvMsgLine ++ recvEndLog e, conn := none, receiver := none, status := "WebSocket disconnected" }, ?_, rfl, rfl, hinterm st hc hr, ?_⟩
  · simp [receive_websocket_messages, hc]
  · intro s hs
    rcases List.mem_append.mp hs with hs1 | hs2
    · rcases hinterm st hc hr s hs1 with ⟨h1, h2⟩
      exact .inl ⟨by simp [h1], by simp [h2]⟩
    · rcases List.mem_singleton.mp hs2 with rfl
      exact .inr ⟨rfl, rfl⟩

/-- Witness for C3: one received message, then a clean remote close
with code 1000, from a connected state. -/
theorem receive_loop_clears_state_witness :
    ∃ st1, receive_websocket_messages ["hello"] (.closed 1000)
        { conn := some 0, receiver := some 0, log := [], status := "WebSocket connected" } =
        .ok st1 ∧
      st1.conn = none ∧ st1.receiver = none ∧
      (∀ s ∈ recv_intermediates ["hello"]
          { conn := some 0, receiver := some 0, log := [], status := "WebSocket connected" },
        s.conn = some 0 ∧ s.receiver = some 0) ∧
      (∀ s ∈ recv_intermediates ["hello"]
          { conn := some 0, receiver := some 0, log := [], status := "WebSocket connected" } ++ [st1],
        (s.conn.isSome = true ∧ s.receiver.isSome = true) ∨
          (s.conn = none ∧ s.receiver = none)) :=
  receive_loop_clears_state ["hello"] (.closed 1000)
    { conn := some 0, receiver := some 0, log := [], status := "WebSocket connected" } 0 0 rfl rfl

/-- Counterexample to claim C4.  First: the guard of the connect
operation tests the connection handle, which a first Connect only sets
after its handshake completes, so a second Connect issued while the
first handshake is still in flight passes validation and proceeds to
its own handshake instead of being rejected.  Second: the URL check
precedes the already-connected guard, so a Connect with a blank URL
while a handle is present is rejected citing the missing URL, not with
the already-connected report. -/
theorem connect_guard_counterexample :
    (connect_phase1 "ws://a" "" wsInit).2 = some ("ws://a", []) ∧
    (connect_phase1 "ws://b" "" (connect_phase1 "ws://a" "" wsInit).1).2 = some ("ws://b", []) ∧
    (connect_phase1 "" ""
      { conn := some 7, receiver := some 7, log := [], status := "WebSocket connected" }).1.log =
      ["Please provide a WebSocket URL."] := by
  decide

/-- Claim C4 (amended): a Connect call issued while the connection
handle is present and whose URL is non-empty after stripping is
rejected with the already-connected report and nothing else: no
handshake is initiated (so the call is not queued or coalesced) and the
existing session's connection handle, receive task, and status are
untouched, only the log gains the report.  A Connect with a blank URL
is instead rejected citing the missing URL, and a Connect issued while
a first Connect's handshake is still in flight is not rejected, because
the handle is not yet set. -/
theorem connect_rejected_when_handle_present (url_raw headers_raw : String)
    (st : WsState) (c : Nat) (hc : st.conn = some c) (hu : pyStrip url_raw ≠ "") :
    connect_phase1 url_raw headers_raw st =
      ({ st with log := st.log ++ ["Already connected. Disconnect first."] }, none) := by
  simp [connect_phase1, hu, hc]

/-- Witness for C4 (amended) at a concrete connected state. -/
theorem connect_rejected_when_handle_present_witness :
    connect_phase1 "ws://b" "X: y"
      { conn := some 7, receiver := some 7, log := [], status := "WebSocket connected" } =
      ({ conn := some 7, receiver := some 7,
         log := [] ++ ["Already connected. Disconnect first."],
         status := "WebSocket connected" }, none) :=
  connect_rejected_when_handle_present "ws://b" "X: y"
    { conn := some 7, receiver := some 7, log := [], status := "WebSocket connected" } 7
    rfl (by decide)

/-- Claim C9: SendMessage is rejected with the not-connected report and
attempts no network send unless a connection handle is present (the
embedded form of the Connected state); with a handle present it is
rejected with the empty-message report when the text is empty; and when
the write to the connection fails, the error-tagged log event is
emitted while the connection handle, receive task, and status are left
exactly as they were: the sender tears nothing down. -/
theorem send_message_guards_and_frame :
    (∀ (message : String) (res : Except String Unit) (st : WsState), st.conn = none →
      send_websocket_message message res st =
        ({ st with log := st.log ++ ["Connect before sending messages."] }, false)) ∧
    (∀ (res : Except String Unit) (st : WsState) (c : Nat), st.conn = some c →
      send_websocket_message "" res st =
        ({ st with log := st.log ++ ["Message is empty."] }, false)) ∧
    (∀ (message e : String) (st : WsState) (c : Nat), st.conn = some c → message ≠ "" →
      send_websocket_message message (.error e) st =
        ({ st with log := st.log ++ ["[red]Send error:[/red] " ++ e] }, true)) := by
  refine ⟨?_, ?_, ?_⟩
  · intro message res st h
    simp [send_websocket_message, h]
  · intro res st c h
    simp [send_websocket_message, h]
  · intro message e st c h hm
    simp [send_websocket_message, h, hm]

/-- Witness for C9: a send while disconnected, an empty send while
connected, and a failing send while connected. -/
theorem send_message_guards_and_frame_witness :
    send_websocket_message "hi" (.ok ()) wsInit =
      ({ wsInit with log := wsInit.log ++ ["Connect before sending messages."] }, false) ∧
    send_websocket_message "" (.ok ())
      { conn := some 1, receiver := some 1, log := [], status := "WebSocket connected" } =
      ({ conn := some 1, receiver := some 1, log := [] ++ ["Message is empty."],
         status := "WebSocket connected" }, false) ∧
    send_websocket_message "hi" (.error "gone")
      { conn := some 1, receiver := some 1, log := [], status := "WebSocket connected" } =
      ({ conn := some 1, receiver := some 1,
         log := [] ++ ["[red]Send error:[/red] " ++ "gone"],
         status := "WebSocket connected" }, true) := by
  refine ⟨?_, ?_, ?_⟩
  · exact send_message_guards_and_frame.1 "hi" (.ok ()) wsInit rfl
  · exact send_message_guards_and_frame.2.1 (.ok ())
      { conn := some 1, receiver := some 1, log := [], status := "WebSocket connected" } 1 rfl
  · exact send_message_guards_and_frame.2.2 "hi" "gone"
      { conn := some 1, receiver := some 1, log := [], status := "WebSocket connected" } 1
      rfl (by decide)
